import Mathlib

/-!
Verification of the InterfaceProxy registry and call-dispatch contract of
dbus-cxx (src/dbus-cxx/interfaceproxy.h).  The header declares the class and
gives inline bodies for the templates create_method and create_signal; the
remaining member functions are modelled from the header's doc comments and
the specification, as marked on each definition.

Modelling choices:
- A shared_ptr<MethodProxyBase> handle is a record of an identity (the pointer,
  modelled as a Nat id) and the method name the handle is bound to.
- Methods is std::multimap<std::string, shared_ptr<MethodProxyBase>> keyed by
  the handle's own name; a multimap keeps equal keys in insertion order and
  name lookups only inspect entries of that name, so an insertion-ordered list
  of handles is an equivalent model for every operation treated here.
- Signals is std::set<shared_ptr<signal_proxy_base>>: membership is by handle
  identity; modelled as a duplicate-free-by-identity list.
- The weak_ptr<Connection> is an Option: none models both an unattached proxy
  and a dead connection.
-/

namespace DBus

abbrev Path := String

def emptyPath : Path := ""

def emptyStr : String := ""

/-- A method proxy handle: shared_ptr identity plus the method name it is
bound to (MethodProxyBase::name, the registry key). -/
structure MethodProxyBase where
  id : Nat
  name : String
deriving DecidableEq

/-- The methods registry (std::multimap keyed by handle name), modelled as an
insertion-ordered list of handles. -/
abbrev Methods := List MethodProxyBase

/-- Modelled from the spec: the body of InterfaceProxy::has_method(name) is not
under src/ (declaration only, interfaceproxy.h line 104, doc: true if the
interface has a method with the given name). -/
def has_method (ms : Methods) (n : String) : Bool :=
  ms.any (fun e => e.name == n)

/-- Modelled from the spec: the body of InterfaceProxy::method(name) is not
under src/ (declaration only, interfaceproxy.h lines 77-78, doc: returns the
first method with the given name). First match in insertion order among
entries of that name, empty shared_ptr if absent. -/
def method (ms : Methods) (n : String) : Option MethodProxyBase :=
  ms.find? (fun e => e.name == n)

/-- Modelled from the spec: the body of InterfaceProxy::add_method is not under
src/ (declaration and doc only, interfaceproxy.h lines 91-95: if a method with
the same name already exists, does not replace the current method, returns
false).  Otherwise the handle is inserted under its own name; appending models
multimap insertion, which keeps equal keys in insertion order.  Returns the
success flag and the updated registry. -/
def add_method (ms : Methods) (m : MethodProxyBase) : Bool × Methods :=
  if has_method ms m.name then (false, ms) else (true, ms ++ [m])

/-- Modelled from the spec: the body of InterfaceProxy::remove_method(name) is
not under src/ (declaration only, interfaceproxy.h lines 97-98); per the spec
it removes the first entry found for the name. -/
def remove_method : Methods → String → Methods
  | [], _ => []
  | e :: ms, n => if e.name == n then ms else e :: remove_method ms n

/-- InterfaceProxy::remove_method(name) is declared with a void return
(interfaceproxy.h line 98): the caller-visible outcome of a call is the unit
value, paired here with the updated registry state. -/
def remove_method_call (ms : Methods) (n : String) : Unit × Methods :=
  ((), remove_method ms n)

/-- Modelled from the spec: the body of InterfaceProxy::remove_method(handle)
is not under src/ (declaration only, interfaceproxy.h lines 100-101); per the
spec it removes exactly that handle if present. -/
def remove_method_handle : Methods → MethodProxyBase → Methods
  | [], _ => []
  | e :: ms, m => if e = m then ms else e :: remove_method_handle ms m

/-- InterfaceProxy::create_method (inline body, interfaceproxy.h lines 80-89):
constructs a fresh typed handle for the name (the fresh shared_ptr is modelled
by a caller-supplied fresh id), attempts add_method, and returns the empty
shared_ptr when add_method returns false, otherwise the handle. -/
def create_method (ms : Methods) (freshId : Nat) (n : String) :
    Option MethodProxyBase × Methods :=
  let m : MethodProxyBase := ⟨freshId, n⟩
  match add_method ms m with
  | (true, ms2) => (some m, ms2)
  | (false, ms2) => (none, ms2)

/-- One mutating operation on the methods registry, as exposed by the public
interface of InterfaceProxy (add_method, remove_method by name, remove_method
by handle; create_method mutates only through add_method). -/
inductive RegistryOp where
  | addM (m : MethodProxyBase)
  | removeName (n : String)
  | removeHandle (m : MethodProxyBase)

/-- Apply one registry operation to a registry state. -/
def applyOp (ms : Methods) : RegistryOp → Methods
  | .addM m => (add_method ms m).2
  | .removeName n => remove_method ms n
  | .removeHandle m => remove_method_handle ms m

/-- The registry state reached from the empty registry by a sequence of
public registry operations. -/
def runOps (ops : List RegistryOp) : Methods :=
  ops.foldl applyOp []

/-- The routing criteria of a signal subscription: object path, interface
name, member name. -/
structure SignalMatchRule where
  path : Path
  iface : String
  member : String
deriving DecidableEq

/-- SignalMatchRule::create builder entry point. -/
def SignalMatchRule.create : SignalMatchRule :=
  { path := emptyPath, iface := emptyStr, member := emptyStr }

/-- SignalMatchRule builder: set the path field. -/
def SignalMatchRule.setPath (r : SignalMatchRule) (p : Path) : SignalMatchRule :=
  { r with path := p }

/-- SignalMatchRule builder: set the interface field. -/
def SignalMatchRule.setInterface (r : SignalMatchRule) (s : String) : SignalMatchRule :=
  { r with iface := s }

/-- SignalMatchRule builder: set the member field. -/
def SignalMatchRule.setMember (r : SignalMatchRule) (s : String) : SignalMatchRule :=
  { r with member := s }

/-- A signal proxy handle: shared_ptr identity plus the match rule it is
bound to. -/
structure signal_proxy_base where
  id : Nat
  rule : SignalMatchRule
deriving DecidableEq

/-- An outbound call envelope: path, interface and member addressing fields. -/
structure CallMessage where
  path : Path
  iface : String
  member : String
deriving DecidableEq

/-- A reply envelope, opaque to this core. -/
structure ReturnMessage where
  id : Nat
deriving DecidableEq

/-- A pending-call handle for an asynchronous invocation, opaque to this
core. -/
structure PendingCall where
  id : Nat
deriving DecidableEq

/-- Outcome of a synchronous call, per the spec's error taxonomy. -/
inductive CallResult where
  | reply (r : ReturnMessage)
  | notConnected
  | timedOut
  | transportFailure
deriving DecidableEq

/-- Outcome of an asynchronous call: a pending handle, or an immediate
not-connected failure. -/
inductive AsyncResult where
  | pending (p : PendingCall)
  | notConnected
deriving DecidableEq

/-- The transport connection, consumed as an external collaborator: a
blocking send primitive and an asynchronous send primitive. -/
structure Connection where
  send_and_block : CallMessage → Int → CallResult
  send_async : CallMessage → Int → PendingCall

/-- The owning ObjectProxy: supplies the object path and the (possibly dead)
connection. -/
structure ObjectProxy where
  path : Path
  conn : Option Connection

/-- The InterfaceProxy state: immutable name, optional owning object, the
method registry and the signal registry. -/
structure InterfaceProxy where
  m_name : String
  m_object : Option ObjectProxy
  m_methods : Methods
  m_signals : List signal_proxy_base

/-- Modelled from the spec: the body of InterfaceProxy::path() is not under
src/ (declaration only, interfaceproxy.h line 69); per spec 4.1 it derives the
object path from the owning ObjectProxy and fails soft (empty path) when
unattached. -/
def InterfaceProxy.path (ip : InterfaceProxy) : Path :=
  match ip.m_object with
  | none => emptyPath
  | some o => o.path

/-- Modelled from the spec: the body of InterfaceProxy::connection() is not
under src/ (declaration only, interfaceproxy.h line 71); it is a weak
reference to the transport connection, none when the proxy is unattached or
the Connection is dead. -/
def InterfaceProxy.connection (ip : InterfaceProxy) : Option Connection :=
  match ip.m_object with
  | none => none
  | some o => o.conn

/-- Modelled from the spec: the body of InterfaceProxy::add_signal is not
under src/ (declaration only, interfaceproxy.h line 132); per spec 4.3 the
signal registry has set semantics keyed by handle identity: inserting a handle
already present is rejected, distinct handles are appended. -/
def add_signal (ip : InterfaceProxy) (sig : signal_proxy_base) :
    Bool × InterfaceProxy :=
  if sig ∈ ip.m_signals then (false, ip)
  else (true, { ip with m_signals := ip.m_signals ++ [sig] })

/-- InterfaceProxy::create_signal (inline body, interfaceproxy.h lines
115-126): builds the match rule from this->path(), m_name and the signal name
via the builder, constructs the typed proxy bound to that rule (the fresh
shared_ptr is modelled by a caller-supplied fresh id), calls add_signal with
its Bool result discarded, and returns the proxy. -/
def create_signal (ip : InterfaceProxy) (freshId : Nat) (sig_name : String) :
    signal_proxy_base × InterfaceProxy :=
  let rule :=
    ((SignalMatchRule.create.setPath ip.path).setInterface ip.m_name).setMember sig_name
  let sig : signal_proxy_base := { id := freshId, rule := rule }
  (sig, (add_signal ip sig).2)

/-- Modelled from the spec: the body of InterfaceProxy::create_call_message is
not under src/ (declaration only, interfaceproxy.h line 109); per spec 4.4 it
builds an envelope addressed with the owning object's path, this interface's
name and the given member name, with no registration requirement. -/
def create_call_message (ip : InterfaceProxy) (method_name : String) : CallMessage :=
  { path := ip.path, iface := ip.m_name, member := method_name }

/-- Modelled from the spec: the body of InterfaceProxy::call is not under src/
(declaration only, interfaceproxy.h line 111); per spec 4.4 and 7 it requires
a live connection and fails fast with a not-connected result when unattached
or the connection is gone, without consulting the transport; otherwise it
delegates to the connection's blocking send primitive. -/
def call (ip : InterfaceProxy) (msg : CallMessage) (timeout_milliseconds : Int) :
    CallResult :=
  match ip.connection with
  | none => CallResult.notConnected
  | some c => c.send_and_block msg timeout_milliseconds

/-- Modelled from the spec: the body of InterfaceProxy::call_async is not
under src/ (declaration only, interfaceproxy.h line 113); per spec 4.4 and 7
it fails fast with a not-connected result when unattached or the connection is
gone, otherwise delegates to the connection's asynchronous send primitive and
returns the pending handle. -/
def call_async (ip : InterfaceProxy) (msg : CallMessage) (timeout_milliseconds : Int) :
    AsyncResult :=
  match ip.connection with
  | none => AsyncResult.notConnected
  | some c => AsyncResult.pending (c.send_async msg timeout_milliseconds)

/-- Concrete method name used by witnesses. -/
def sAdd : String := "add"

/-- Second concrete method name used by witnesses. -/
def sBaz : String := "baz"

/-- Concrete signal member name used by witnesses. -/
def sSig : String := "Changed"

/-- Concrete member name used by witnesses. -/
def sPing : String := "Ping"

/-- Concrete interface name used by witnesses. -/
def sIface : String := "org.example.Echo"

/-- Concrete object path used by witnesses. -/
def pObj : Path := "/obj"

/-- A concrete method handle named add. -/
def h0 : MethodProxyBase := { id := 0, name := sAdd }

/-- A distinct concrete method handle also named add. -/
def h1 : MethodProxyBase := { id := 1, name := sAdd }

/-- A concrete method handle named baz. -/
def hBaz : MethodProxyBase := { id := 2, name := sBaz }

/-- A concrete attached ObjectProxy with no live connection. -/
def op0 : ObjectProxy := { path := pObj, conn := none }

/-- A concrete unattached InterfaceProxy. -/
def ip0 : InterfaceProxy :=
  { m_name := sIface, m_object := none, m_methods := [], m_signals := [] }

/-- The match rule for sSig on ip1. -/
def ruleSig : SignalMatchRule := { path := pObj, iface := sIface, member := sSig }

/-- A concrete signal handle bound to ruleSig. -/
def sig0 : signal_proxy_base := { id := 0, rule := ruleSig }

/-- A concrete attached InterfaceProxy already holding sig0. -/
def ip1 : InterfaceProxy :=
  { m_name := sIface, m_object := some op0, m_methods := [], m_signals := [sig0] }

/-- A concrete operation sequence registering two distinct names. -/
def ops2 : List RegistryOp := [RegistryOp.addM h0, RegistryOp.addM hBaz]

/-- A concrete call envelope used by witnesses. -/
def msg0 : CallMessage := create_call_message ip0 sPing

/-- C1: add_method returns false whenever an entry with the handle's exact
name already exists — whether the existing entry is the same handle or a
different one — and on such rejection the registry is unchanged, so the
previously registered handle for that name is still returned by method(name)
unchanged. -/
theorem C1_add_method_first_writer_wins (ms : Methods) (m : MethodProxyBase)
    (hex : has_method ms m.name = true) :
    (add_method ms m).1 = false ∧ (add_method ms m).2 = ms ∧
    method (add_method ms m).2 m.name = method ms m.name := by
  simp [add_method, hex]

/-- C1 witness at a concrete input: the registry already holds h0 under the
name, so adding the distinct handle h1 carrying the same name is rejected and
the registry is unchanged. -/
theorem C1_add_method_first_writer_wins_witness :
    has_method [h0] h1.name = true ∧
    ((add_method [h0] h1).1 = false ∧ (add_method [h0] h1).2 = [h0] ∧
      method (add_method [h0] h1).2 h1.name = method [h0] h1.name) :=
  ⟨by decide, C1_add_method_first_writer_wins [h0] h1 (by decide)⟩

/-- C2: create_method returns a handle iff registering the freshly constructed
handle succeeded: it returns none exactly when add_method returned false, and
any returned handle is present in the resulting methods registry. -/
theorem C2_create_method_couples_registration (ms : Methods) (i : Nat) (n : String) :
    ((create_method ms i n).1 = none ↔ (add_method ms ⟨i, n⟩).1 = false) ∧
    (∀ m, (create_method ms i n).1 = some m → m ∈ (create_method ms i n).2) := by
  unfold create_method add_method
  by_cases hb : has_method ms n
  · simp [hb]
  · simp [hb]

/-- C2 witness at a concrete input: on the empty registry create_method
returns the fresh handle and that handle is registered. -/
theorem C2_create_method_couples_registration_witness :
    (create_method [] 0 sAdd).1 = some h0 ∧ h0 ∈ (create_method [] 0 sAdd).2 :=
  ⟨by decide, (C2_create_method_couples_registration [] 0 sAdd).2 h0 (by decide)⟩

/-- Helper: remove_method by name yields a sublist of the registry. -/
theorem remove_method_sublist (ms : Methods) (n : String) :
    List.Sublist (remove_method ms n) ms := by
  induction ms with
  | nil => simp [remove_method]
  | cons e ms ih =>
    unfold remove_method
    by_cases h : (e.name == n) = true
    · simp only [h, if_true]
      exact List.sublist_cons_self e ms
    · simp only [h, if_false]
      exact List.Sublist.cons₂ e ih

/-- Helper: remove_method by handle yields a sublist of the registry. -/
theorem remove_method_handle_sublist (ms : Methods) (m : MethodProxyBase) :
    List.Sublist (remove_method_handle ms m) ms := by
  induction ms with
  | nil => simp [remove_method_handle]
  | cons e ms ih =>
    unfold remove_method_handle
    by_cases h : e = m
    · simp only [h, if_true]
      exact List.sublist_cons_self m ms
    · simp only [h, if_false]
      exact List.Sublist.cons₂ e ih

/-- Helper: every public registry operation preserves pairwise-distinct
method names. -/
theorem applyOp_nodup (ms : Methods) (op : RegistryOp)
    (h : (ms.map MethodProxyBase.name).Nodup) :
    ((applyOp ms op).map MethodProxyBase.name).Nodup := by
  cases op with
  | addM m =>
    show (((add_method ms m).2).map MethodProxyBase.name).Nodup
    unfold add_method
    by_cases hex : has_method ms m.name = true
    · simpa [hex] using h
    · rw [Bool.not_eq_true] at hex
      have hnotin : m.name ∉ ms.map MethodProxyBase.name := by
        intro hmem
        rcases List.mem_map.mp hmem with ⟨x, hx, hxa⟩
        have hhm : has_method ms m.name = true := by
          unfold has_method
          rw [List.any_eq_true]
          exact ⟨x, hx, beq_iff_eq.mpr hxa⟩
        rw [hex] at hhm
        cases hhm
      rw [hex]
      simp only [Bool.false_eq_true, if_false, List.map_append, List.nodup_append,
        List.map_cons, List.map_nil]
      refine ⟨h, List.nodup_singleton _, ?_⟩
      intro a ha hb
      simp only [List.mem_singleton] at hb
      rw [hb] at ha
      exact hnotin ha
  | removeName n =>
    exact List.Nodup.sublist
      (List.Sublist.map MethodProxyBase.name (remove_method_sublist ms n)) h
  | removeHandle m =>
    exact List.Nodup.sublist
      (List.Sublist.map MethodProxyBase.name (remove_method_handle_sublist ms m)) h

/-- Helper: every registry state reachable from the empty registry has
pairwise-distinct method names. -/
theorem runOps_nodup (ops : List RegistryOp) :
    ((runOps ops).map MethodProxyBase.name).Nodup := by
  suffices hgen : ∀ ms : Methods, (ms.map MethodProxyBase.name).Nodup →
      ((ops.foldl applyOp ms).map MethodProxyBase.name).Nodup by
    exact hgen [] (by simp)
  induction ops with
  | nil => intro ms h; simpa using h
  | cons op ops ih =>
    intro ms h
    exact ih (applyOp ms op) (applyOp_nodup ms op h)

/-- Helper: with pairwise-distinct names, at most one entry matches any given
name. -/
theorem nodup_filter_name_le_one (ms : Methods) (n : String)
    (h : (ms.map MethodProxyBase.name).Nodup) :
    (ms.filter (fun e => e.name == n)).length ≤ 1 := by
  induction ms with
  | nil => simp
  | cons e ms ih =>
    rw [List.map_cons, List.nodup_cons] at h
    by_cases he : (e.name == n) = true
    · have hnil : ms.filter (fun e => e.name == n) = [] := by
        rw [List.filter_eq_nil_iff]
        intro x hx
        simp only [beq_iff_eq]
        intro hxn
        exact h.1 (by
          rw [List.mem_map]
          exact ⟨x, hx, by rw [hxn]; exact (beq_iff_eq.mp he).symm⟩)
      rw [List.filter_cons, if_pos he, hnil]
      simp
    · rw [List.filter_cons, if_neg he]
      exact ih h.2

/-- Helper: remove_method by handle keeps every registered handle other than
the targeted one. -/
theorem mem_remove_method_handle (ms : Methods) (m x : MethodProxyBase)
    (hx : x ∈ ms) (hne : x ≠ m) : x ∈ remove_method_handle ms m := by
  induction ms with
  | nil => cases hx
  | cons e ms ih =>
    unfold remove_method_handle
    by_cases he : e = m
    · simp only [he, if_true]
      rcases List.mem_cons.mp hx with hxe | hxm
      · exact absurd (hxe.trans he) hne
      · exact hxm
    · simp only [he, if_false]
      rcases List.mem_cons.mp hx with hxe | hxm
      · exact List.mem_cons.mpr (Or.inl hxe)
      · exact List.mem_cons.mpr (Or.inr (ih hxm))

/-- C3 counterexample: the claim's overloaded state is unreachable — starting
from the empty registry, no sequence of public registry operations produces a
state holding two or more entries under one method name, because add_method
rejects any name already present. -/
theorem C3_counterexample_no_overloads :
    ¬ ∃ (ops : List RegistryOp) (n : String),
      2 ≤ ((runOps ops).filter (fun e => e.name == n)).length := by
  rintro ⟨ops, n, hle⟩
  have h := nodup_filter_name_le_one (runOps ops) n (runOps_nodup ops)
  omega

/-- C3 amended: the registry type (a multimap) permits multiple entries per
name, but since add_method rejects any name already present, every registry
state reachable by public operations holds at most one entry per name; and
remove_method(handle) removes only the targeted handle — every other
registered handle survives. -/
theorem C3_amended_at_most_one_per_name (ops : List RegistryOp) (n : String)
    (m x : MethodProxyBase) (hx : x ∈ runOps ops) (hne : x ≠ m) :
    ((runOps ops).filter (fun e => e.name == n)).length ≤ 1 ∧
    x ∈ remove_method_handle (runOps ops) m :=
  ⟨nodup_filter_name_le_one (runOps ops) n (runOps_nodup ops),
   mem_remove_method_handle (runOps ops) m x hx hne⟩

/-- C3 amended witness at a concrete input: after registering h0 and hBaz,
removing the handle h0 keeps hBaz registered, and at most one entry carries
the name add. -/
theorem C3_amended_at_most_one_per_name_witness :
    hBaz ∈ runOps ops2 ∧ hBaz ≠ h0 ∧
    (((runOps ops2).filter (fun e => e.name == sAdd)).length ≤ 1 ∧
      hBaz ∈ remove_method_handle (runOps ops2) h0) :=
  ⟨by decide, by decide,
   C3_amended_at_most_one_per_name ops2 sAdd h0 hBaz (by decide) (by decide)⟩

/-- C4: method(name) returns the first registered handle for the name in
insertion order and none when no handle with that name is registered;
has_method(name) is true exactly when some handle with that name is
registered. -/
theorem C4_method_first_match (ms : Methods) (n : String) :
    (has_method ms n = true ↔ ∃ m ∈ ms, m.name = n) ∧
    (method ms n = none ↔ ∀ m ∈ ms, m.name ≠ n) ∧
    (∀ m, method ms n = some m →
      m.name = n ∧ ∃ l1 l2, ms = l1 ++ m :: l2 ∧ ∀ x ∈ l1, x.name ≠ n) := by
  refine ⟨?_, ?_, ?_⟩
  · simp [has_method, List.any_eq_true]
  · simp [method, List.find?_eq_none]
  · intro m
    induction ms with
    | nil => intro hfind; cases hfind
    | cons e ms ih =>
      unfold method
      rw [List.find?_cons]
      by_cases he : e.name == n
      · simp only [he, if_true]
        intro hsome
        injection hsome with hem
        subst hem
        exact ⟨beq_iff_eq.mp he, [], ms, rfl, by simp⟩
      · simp only [he, if_false]
        intro hfind
        rcases ih hfind with ⟨hname, l1, l2, hsplit, hl1⟩
        refine ⟨hname, e :: l1, l2, by rw [List.cons_append, hsplit], ?_⟩
        intro x hxmem
        rcases List.mem_cons.mp hxmem with hxe | hxl
        · rw [hxe]
          simpa using he
        · exact hl1 x hxl

/-- C4 witness at a concrete input: on the registry holding h0 then hBaz,
lookup of the name add finds h0 with nothing before it, and lookup of an
absent name is characterised by the none case of the theorem. -/
theorem C4_method_first_match_witness :
    method [h0, hBaz] sAdd = some h0 ∧
    (h0.name = sAdd ∧
      ∃ l1 l2, [h0, hBaz] = l1 ++ h0 :: l2 ∧ ∀ x ∈ l1, x.name ≠ sAdd) :=
  ⟨by decide, (C4_method_first_match [h0, hBaz] sAdd).2.2 h0 (by decide)⟩

/-- C5 counterexample: remove_method(name) is declared void, so the outcome a
caller receives when the name is absent (here: the empty registry) is the very
same unit value received when a handle is found and actually removed — there
is no distinguishable not-found outcome, only a silent no-op. -/
theorem C5_counterexample_void_return :
    has_method [] sAdd = false ∧ has_method [h0] sAdd = true ∧
    (remove_method_call [] sAdd).1 = (remove_method_call [h0] sAdd).1 ∧
    (remove_method_call [h0] sAdd).2 ≠ [h0] :=
  ⟨by decide, by decide, rfl, by decide⟩

/-- C5 amended: remove_method(name) on a registry without an entry of that
name (including the empty registry) is a silent no-op: the registry is left
unchanged and the call returns normally (void) rather than raising an error,
but its return value carries no not-found indication. -/
theorem C5_amended_silent_noop (ms : Methods) (n : String)
    (h : has_method ms n = false) :
    remove_method_call ms n = ((), ms) := by
  unfold remove_method_call
  suffices hrm : remove_method ms n = ms by rw [hrm]
  induction ms with
  | nil => rfl
  | cons e ms ih =>
    unfold has_method at h
    simp only [List.any_cons, Bool.or_eq_false_iff] at h
    unfold remove_method
    rw [h.1]
    simp only [Bool.false_eq_true, if_false]
    rw [ih (by unfold has_method; exact h.2)]

/-- C5 amended witness at a concrete input: removing the name add from the
empty registry returns unit and the unchanged empty registry. -/
theorem C5_amended_silent_noop_witness :
    has_method [] sAdd = false ∧ remove_method_call [] sAdd = ((), []) :=
  ⟨by decide, C5_amended_silent_noop [] sAdd (by decide)⟩

/-- C6: create_signal builds its proxy bound to a match rule whose path field
is this interface's current path(), whose interface field is the immutable
interface name, and whose member field is the given signal name; it registers
that proxy via add_signal (the resulting state is exactly the add_signal
state) and returns it, and when the constructed proxy is fresh (its id is not
already registered, as a freshly constructed shared_ptr always is) the proxy
is present in the resulting signal registry. -/
theorem C6_create_signal_match_rule (ip : InterfaceProxy) (i : Nat) (s : String)
    (hfresh : ∀ sg ∈ ip.m_signals, sg.id ≠ i) :
    (create_signal ip i s).1.rule.path = ip.path ∧
    (create_signal ip i s).1.rule.iface = ip.m_name ∧
    (create_signal ip i s).1.rule.member = s ∧
    (create_signal ip i s).2 = (add_signal ip (create_signal ip i s).1).2 ∧
    (create_signal ip i s).1 ∈ (create_signal ip i s).2.m_signals := by
  refine ⟨rfl, rfl, rfl, rfl, ?_⟩
  show (create_signal ip i s).1 ∈ (add_signal ip (create_signal ip i s).1).2.m_signals
  unfold add_signal
  have hnm : (create_signal ip i s).1 ∉ ip.m_signals := by
    intro hmem
    exact hfresh _ hmem rfl
  rw [if_neg hnm]
  simp

/-- C6 witness at a concrete input: on the attached proxy ip1 (path /obj,
name org.example.Echo) a fresh signal proxy with id 1 for member Changed is
built with exactly that triple, registered, and present afterwards. -/
theorem C6_create_signal_match_rule_witness :
    (∀ sg ∈ ip1.m_signals, sg.id ≠ 1) ∧
    ((create_signal ip1 1 sSig).1.rule.path = ip1.path ∧
      (create_signal ip1 1 sSig).1.rule.iface = ip1.m_name ∧
      (create_signal ip1 1 sSig).1.rule.member = sSig ∧
      (create_signal ip1 1 sSig).2 = (add_signal ip1 (create_signal ip1 1 sSig).1).2 ∧
      (create_signal ip1 1 sSig).1 ∈ (create_signal ip1 1 sSig).2.m_signals) :=
  ⟨by decide, C6_create_signal_match_rule ip1 1 sSig (by decide)⟩

/-- C7: create_call_message builds an envelope whose path field is the owning
object's path (via path(); the interface's path for the attached case), whose
interface field is this interface's name and whose member field is the given
method name; the envelope does not depend on the methods registry, so
registration of the name is not a precondition. -/
theorem C7_create_call_message_fields (ip : InterfaceProxy) (m : String)
    (ms : Methods) :
    (create_call_message ip m).path = ip.path ∧
    (create_call_message ip m).iface = ip.m_name ∧
    (create_call_message ip m).member = m ∧
    create_call_message { ip with m_methods := ms } m = create_call_message ip m ∧
    (∀ o, ip.m_object = some o → (create_call_message ip m).path = o.path) := by
  refine ⟨rfl, rfl, rfl, rfl, ?_⟩
  intro o ho
  show ip.path = o.path
  unfold InterfaceProxy.path
  rw [ho]

/-- C7 witness at a concrete input: on the interface named org.example.Echo
attached at /obj, the envelope for Ping carries exactly that path, interface
and member, whether or not Ping is registered. -/
theorem C7_create_call_message_fields_witness :
    ip1.m_object = some op0 ∧
    ((create_call_message ip1 sPing).path = ip1.path ∧
      (create_call_message ip1 sPing).iface = ip1.m_name ∧
      (create_call_message ip1 sPing).member = sPing ∧
      create_call_message { ip1 with m_methods := [h0] } sPing =
        create_call_message ip1 sPing ∧
      (∀ o, ip1.m_object = some o → (create_call_message ip1 sPing).path = o.path)) :=
  ⟨rfl, C7_create_call_message_fields ip1 sPing [h0]⟩

/-- C8: call and call_async on an InterfaceProxy whose connection() is none —
which covers both the unattached proxy and a dead weak Connection reference —
return the not-connected failure immediately; in this branch neither transport
send primitive is ever consulted. -/
theorem C8_call_fails_fast_not_connected (ip : InterfaceProxy)
    (msg : CallMessage) (t : Int) (h : ip.connection = none) :
    call ip msg t = CallResult.notConnected ∧
    call_async ip msg t = AsyncResult.notConnected := by
  unfold call call_async
  rw [h]
  exact ⟨rfl, rfl⟩

/-- C8 witness at a concrete input: the unattached proxy ip0 fails both call
paths immediately with the not-connected result. -/
theorem C8_call_fails_fast_not_connected_witness :
    InterfaceProxy.connection ip0 = none ∧
    (call ip0 msg0 (-1) = CallResult.notConnected ∧
      call_async ip0 msg0 (-1) = AsyncResult.notConnected) :=
  ⟨rfl, C8_call_fails_fast_not_connected ip0 msg0 (-1) rfl⟩

/-- C10: create_signal returns the freshly constructed proxy unconditionally —
its return value is the constructed handle whatever add_signal decides — and
when add_signal rejects the registration the interface state is unchanged, so
the caller cannot detect a failed signal registration from the returned
handle. -/
theorem C10_create_signal_ignores_add_result (ip : InterfaceProxy) (i : Nat)
    (s : String) :
    (create_signal ip i s).1 =
      { id := i,
        rule := ((SignalMatchRule.create.setPath ip.path).setInterface
          ip.m_name).setMember s } ∧
    ((add_signal ip (create_signal ip i s).1).1 = false →
      (create_signal ip i s).1 =
        { id := i,
          rule := ((SignalMatchRule.create.setPath ip.path).setInterface
            ip.m_name).setMember s } ∧
      (create_signal ip i s).2 = ip) := by
  refine ⟨rfl, ?_⟩
  intro hrej
  refine ⟨rfl, ?_⟩
  show (add_signal ip (create_signal ip i s).1).2 = ip
  unfold add_signal at hrej ⊢
  by_cases hmem : (create_signal ip i s).1 ∈ ip.m_signals
  · rw [if_pos hmem]
  · rw [if_neg hmem] at hrej
    cases hrej

/-- C10 witness at a concrete input: ip1 already holds sig0, and create_signal
for the same member with the same id reconstructs sig0; add_signal rejects the
duplicate, yet the caller still receives sig0 and ip1 is unchanged. -/
theorem C10_create_signal_ignores_add_result_witness :
    (create_signal ip1 0 sSig).1 = sig0 ∧
    (add_signal ip1 (create_signal ip1 0 sSig).1).1 = false ∧
    (create_signal ip1 0 sSig).2 = ip1 :=
  ⟨rfl, rfl,
   ((C10_create_signal_ignores_add_result ip1 0 sSig).2 rfl).2⟩

end DBus
